import Mathlib

/-!
Shallow embedding of the single-page site in this repository:
the Hero component (Background Scene Renderer and Ambient Audio Controller,
from src/Components/Hero.jsx) and the Projects component (Project Card List
and Scroll Reveal Binder, from src/Components/Projects.jsx).

Dimensions, rotation angles and animation parameters are embedded as exact
rationals; results of JavaScript division that may be non-finite are embedded
as the type JSNum, which distinguishes finite values from Infinity and NaN.
Stateful code is embedded as explicit state passing: the mount effect, the
animation tick, the resize handler and the cleanup function of Hero.jsx become
functions on a scene-state record, and the audio toggle becomes a function on
an audio-state record.
-/

namespace WebProject

/-- Result of a JavaScript arithmetic operation: a finite rational, positive
or negative infinity, or NaN.  Division by zero never raises in JavaScript;
it produces one of the non-finite values. -/
inductive JSNum where
  | fin : ℚ → JSNum
  | inf : JSNum
  | ninf : JSNum
  | nan : JSNum
deriving DecidableEq

/-- JavaScript division of two finite numbers (the `a / b` of Hero.jsx):
`b = 0` yields NaN when `a = 0`, Infinity when `a > 0`, and negative infinity
when `a < 0`; no exception is ever raised. -/
def jsDiv (a b : ℚ) : JSNum :=
  if b = 0 then
    if a = 0 then JSNum.nan
    else if 0 < a then JSNum.inf
    else JSNum.ninf
  else JSNum.fin (a / b)

/-- Whether an embedded JavaScript number is finite. -/
def JSNum.isFinite : JSNum → Bool
  | JSNum.fin _ => true
  | _ => false

/-- The drawing surface: a canvas element with its current pixel dimensions
(`canvas.clientWidth`, `canvas.clientHeight`). -/
structure Canvas where
  clientWidth : ℚ
  clientHeight : ℚ
deriving DecidableEq

/-- The perspective camera created in the Hero mount effect:
`new THREE.PerspectiveCamera(50, w / h, 0.1, 1000)` with `camera.position.z = 5`.
`projectionUpdates` counts calls to `camera.updateProjectionMatrix()`. -/
structure Camera where
  fov : ℚ
  aspect : JSNum
  near : ℚ
  far : ℚ
  positionZ : ℚ
  projectionUpdates : ℕ
deriving DecidableEq

/-- The torus-knot mesh: only its continuously mutated rotation angles matter
to the embedded behavior (`mesh.rotation.x`, `mesh.rotation.y`). -/
structure Mesh where
  rotationX : ℚ
  rotationY : ℚ
deriving DecidableEq

/-- The WebGL renderer: its output size as set by `renderer.setSize`, and a
count of `renderer.render(scene, camera)` calls. -/
structure Renderer where
  width : ℚ
  height : ℚ
  renders : ℕ
deriving DecidableEq

/-- The mutable state owned by the Background Scene Renderer effect:
camera, mesh, renderer, the `mounted` liveness flag, and a count of
`requestAnimationFrame` calls issued (frames scheduled). -/
structure SceneState where
  camera : Camera
  mesh : Mesh
  renderer : Renderer
  mounted : Bool
  scheduledFrames : ℕ
deriving DecidableEq

/-- The animation tick of Hero.jsx:
`if (!mounted) return` guards the body; otherwise the tick increments
`mesh.rotation.x` by 0.006 and `mesh.rotation.y` by 0.01, renders, and
schedules the next frame via `requestAnimationFrame(animate)`. -/
def animate (s : SceneState) : SceneState :=
  if !s.mounted then s
  else
    { s with
      mesh := { rotationX := s.mesh.rotationX + 6/1000,
                rotationY := s.mesh.rotationY + 1/100 },
      renderer := { s.renderer with renders := s.renderer.renders + 1 },
      scheduledFrames := s.scheduledFrames + 1 }

/-- Result of running the Hero mount effect: the scene state it constructed
(none when construction was skipped) and whether the resize listener was
registered on `window`. -/
structure MountResult where
  state : Option SceneState
  resizeListenerRegistered : Bool
deriving DecidableEq

/-- The Hero mount effect of Hero.jsx: `if (!canvas) return` makes a null
canvas a silent no-op; otherwise it builds the scene, camera (aspect
`canvas.clientWidth / canvas.clientHeight`), renderer (sized to the canvas),
and mesh, sets `mounted = true`, invokes `animate()` once, and registers the
resize listener. -/
def mountScene (canvas : Option Canvas) : MountResult :=
  match canvas with
  | none => { state := none, resizeListenerRegistered := false }
  | some c =>
    let camera : Camera :=
      { fov := 50, aspect := jsDiv c.clientWidth c.clientHeight,
        near := 1/10, far := 1000, positionZ := 5, projectionUpdates := 0 }
    let renderer : Renderer :=
      { width := c.clientWidth, height := c.clientHeight, renders := 0 }
    let mesh : Mesh := { rotationX := 0, rotationY := 0 }
    let s0 : SceneState :=
      { camera := camera, mesh := mesh, renderer := renderer,
        mounted := true, scheduledFrames := 0 }
    { state := some (animate s0), resizeListenerRegistered := true }

/-- Number of animation frames scheduled by a mount (0 when no scene state
was constructed). -/
def mountScheduledFrames (r : MountResult) : ℕ :=
  match r.state with
  | none => 0
  | some s => s.scheduledFrames

/-- The resize handler of Hero.jsx: reads the canvas's current dimensions,
calls `renderer.setSize(w, h)`, assigns `camera.aspect = w / h` (unguarded
JavaScript division), and calls `camera.updateProjectionMatrix()`. -/
def onResize (c : Canvas) (s : SceneState) : SceneState :=
  { s with
    renderer := { s.renderer with width := c.clientWidth, height := c.clientHeight },
    camera := { s.camera with
                aspect := jsDiv c.clientWidth c.clientHeight,
                projectionUpdates := s.camera.projectionUpdates + 1 } }

/-- The cleanup function returned by the Hero mount effect: sets the
`mounted` liveness flag to false (listener removal and context release do not
touch the scene-state fields embedded here). -/
def cleanup (s : SceneState) : SceneState :=
  { s with mounted := false }

/-- The audio handle created by the preload effect (`new Howl({...})`).
`loaded` records whether the ambient asset actually loaded — an external
condition the component never inspects; `playCalls` and `pauseCalls` count
invocations of `play()` and `pause()` on the handle. -/
structure AudioHandle where
  loaded : Bool
  playCalls : ℕ
  pauseCalls : ℕ
deriving DecidableEq

/-- The state owned by the Ambient Audio Controller: `audioRef.current`
(null before the preload effect runs) and the `playing` boolean. -/
structure AudioState where
  audioRef : Option AudioHandle
  playing : Bool
deriving DecidableEq

/-- The audio preload effect of Hero.jsx: unconditionally assigns
`audioRef.current = new Howl({...})`.  The handle is created whether or not
the asset at the fixed path loads; load failure is invisible to this code. -/
def mountAudio (s : AudioState) (assetLoads : Bool) : AudioState :=
  { s with audioRef := some { loaded := assetLoads, playCalls := 0, pauseCalls := 0 } }

/-- The toggle of Hero.jsx: `if (!audioRef.current) return` presence check,
then `pause()` when playing or `play()` when paused, then
`setPlaying((p) => !p)`. -/
def toggleAudio (s : AudioState) : AudioState :=
  match s.audioRef with
  | none => s
  | some h =>
    if s.playing then
      { audioRef := some { h with pauseCalls := h.pauseCalls + 1 }, playing := !s.playing }
    else
      { audioRef := some { h with playCalls := h.playCalls + 1 }, playing := !s.playing }

/-- The rendered audio button of Hero.jsx: label
`playing ? 'Pause audio' : 'Play audio'` and `aria-pressed={playing}`. -/
structure AudioButton where
  label : String
  ariaPressed : Bool
deriving DecidableEq

/-- Renders the audio toggle button from the `playing` boolean, as the JSX
of Hero.jsx does. -/
def renderAudioButton (playing : Bool) : AudioButton :=
  { label := if playing then "Pause audio" else "Play audio",
    ariaPressed := playing }

/-- A project record of Projects.jsx: `{ id, title, description, date }`. -/
structure ProjectRecord where
  id : ℕ
  title : String
  description : String
  date : String
deriving DecidableEq

/-- The static data source of Projects.jsx:
`new Array(6).fill(0).map((_, i) => ({ id: i + 1, title: ..., ... }))`,
built once at module load and never mutated. -/
def PROJECTS : List ProjectRecord :=
  (List.range 6).map (fun i =>
    { id := i + 1,
      title := "Project " ++ toString (i + 1),
      description := "Short description of the project and its treatment.",
      date := "2024" })

/-- A rendered project card: the `motion.article` produced for one record,
keyed by the record's id and showing its title, description and date. -/
structure Card where
  key : ℕ
  title : String
  description : String
  dateLabel : String
deriving DecidableEq

/-- The card list rendered by the Projects component: `PROJECTS.map((p) => ...)`
in document order. -/
def renderedProjectCards : List Card :=
  PROJECTS.map (fun p =>
    { key := p.id, title := p.title, description := p.description, dateLabel := p.date })

/-- One entrance animation registered by the Scroll Reveal Binder for one
card element: `gsap.from(q('.card'), ...)` animates each target from
`y: 40` and `autoAlpha: 0` over `duration: 0.9`, the target at position i in
document order delayed by `stagger * i`. -/
structure RevealAnimation where
  targetIndex : ℕ
  yFrom : ℚ
  autoAlphaFrom : ℚ
  durationSecs : ℚ
  delay : ℚ
deriving DecidableEq

/-- The fixed stagger increment of Projects.jsx: `stagger: 0.12`. -/
def staggerStep : ℚ := 12/100

/-- The per-target animations a staggered `gsap.from` call registers for a
batch of `numCards` targets: one entrance animation per target, the i-th
target (document order) delayed by `i * stagger`. -/
def registerReveal (numCards : ℕ) : List RevealAnimation :=
  (List.range numCards).map (fun i =>
    { targetIndex := i, yFrom := 40, autoAlphaFrom := 0,
      durationSecs := 9/10, delay := staggerStep * i })

/-- What the Projects mount effect registers: the list of entrance
animations and the scroll-trigger start threshold, as a fraction of the
viewport height that the container's top edge must cross. -/
structure RevealRegistration where
  animations : List RevealAnimation
  triggerStartFraction : ℚ
deriving DecidableEq

/-- The Projects mount effect of Projects.jsx: selects the `.card` elements
inside the container (the cards rendered from PROJECTS, in document order)
and calls `gsap.from` on them with y 40, autoAlpha 0, duration 0.9,
stagger 0.12, and a scroll trigger starting at 'top 80%' (container top
crossing 80% of the viewport height). -/
def projectsMountReveal : RevealRegistration :=
  { animations := registerReveal renderedProjectCards.length,
    triggerStartFraction := 8/10 }

/-- A sample scene state, as the mount effect would build it on a 640 x 480
canvas, used to instantiate theorems at concrete inputs. -/
def sampleScene : SceneState :=
  { camera := { fov := 50, aspect := jsDiv 640 480, near := 1/10, far := 1000,
                positionZ := 5, projectionUpdates := 0 },
    mesh := { rotationX := 0, rotationY := 0 },
    renderer := { width := 640, height := 480, renders := 0 },
    mounted := true, scheduledFrames := 0 }

/-! Theorems settling the claims. -/

/-- An animation tick on a state whose liveness flag is false is the
identity: the tick returns before touching rotation or scheduling. -/
theorem animate_of_not_mounted (s : SceneState) (h : s.mounted = false) :
    animate s = s := by
  simp [animate, h]

/-- Cleanup leaves the liveness flag false. -/
theorem cleanup_mounted (s : SceneState) : (cleanup s).mounted = false := rfl

/-- Claim C4: the Project Card List renders exactly 6 records, pairwise
distinct, with identifiers exactly 1 through 6 in order, and the record with
identifier i has title "Project i" for every i from 1 to 6. -/
theorem c4_project_card_list :
    renderedProjectCards.length = 6
    ∧ PROJECTS.map ProjectRecord.id = [1, 2, 3, 4, 5, 6]
    ∧ PROJECTS.map ProjectRecord.title =
        ["Project 1", "Project 2", "Project 3", "Project 4", "Project 5", "Project 6"]
    ∧ renderedProjectCards.map Card.key = [1, 2, 3, 4, 5, 6]
    ∧ renderedProjectCards.map Card.title =
        ["Project 1", "Project 2", "Project 3", "Project 4", "Project 5", "Project 6"]
    ∧ PROJECTS.Pairwise (fun p q => p ≠ q) := by
  decide

/-- Claim C10: every one of the 6 records has the same description string and
the same date string "2024"; any two records agree on description and date,
and a record is determined by its identifier alone (so the records differ
only in identifier and title). -/
theorem c10_uniform_description_and_date :
    (∀ p ∈ PROJECTS,
        p.description = "Short description of the project and its treatment."
        ∧ p.date = "2024")
    ∧ (∀ p ∈ PROJECTS, ∀ q ∈ PROJECTS, p.description = q.description ∧ p.date = q.date)
    ∧ (∀ p ∈ PROJECTS, ∀ q ∈ PROJECTS, p.id = q.id → p = q)
    ∧ (∀ p ∈ PROJECTS, ∀ q ∈ PROJECTS, p.title = q.title → p = q) := by
  decide

/-- Claim C7: mounting the Background Scene Renderer with a null drawing
surface is a silent no-op: no scene state (hence no scene, camera, renderer
or mesh) is created, no frame is scheduled, and no resize listener is
registered; the mount returns normally. -/
theorem c7_null_canvas_silent_noop :
    (mountScene none).state = none
    ∧ mountScheduledFrames (mountScene none) = 0
    ∧ (mountScene none).resizeListenerRegistered = false := by
  decide

/-- Claim C1 counterexample: mounting with a canvas whose clientWidth and
clientHeight are both zero DOES schedule the frame loop — the mount effect
only checks the canvas for null, so the initial `animate()` call runs and
issues one `requestAnimationFrame`, contradicting the claim that no call to
the animation callback is scheduled. -/
theorem c1_counterexample :
    mountScheduledFrames (mountScene (some { clientWidth := 0, clientHeight := 0 })) = 1 := by
  decide

/-- Claim C1 amended: mounting with a zero-dimension canvas does not throw
(the mount runs to completion, producing a scene state) but it does schedule
the frame loop — exactly one animation frame is requested during mount, just
as for any non-null canvas; scheduling is skipped only when the canvas handle
is null. -/
theorem c1_amended_zero_canvas_mount :
    (mountScene (some { clientWidth := 0, clientHeight := 0 })).state.isSome = true
    ∧ mountScheduledFrames (mountScene (some { clientWidth := 0, clientHeight := 0 })) = 1
    ∧ (mountScene (some { clientWidth := 0, clientHeight := 0 })).resizeListenerRegistered = true
    ∧ mountScheduledFrames (mountScene none) = 0 := by
  decide

/-- Claim C5: after the cleanup function has run (setting the liveness flag
to false), no sequence of animation-callback invocations changes anything:
the mesh rotation angles are unchanged and no further frame is scheduled,
for every number of invocations. -/
theorem c5_no_mutation_after_cleanup (s : SceneState) (n : ℕ) :
    (animate^[n] (cleanup s)).mesh.rotationX = s.mesh.rotationX
    ∧ (animate^[n] (cleanup s)).mesh.rotationY = s.mesh.rotationY
    ∧ (animate^[n] (cleanup s)).scheduledFrames = s.scheduledFrames := by
  have hfix : animate^[n] (cleanup s) = cleanup s := by
    induction n with
    | zero => rfl
    | succ m ih =>
        rw [Function.iterate_succ_apply, animate_of_not_mounted (cleanup s) (cleanup_mounted s)]
        exact ih
  rw [hfix]
  exact ⟨rfl, rfl, rfl⟩

/-- Claim C2 counterexample: in a state where the asset did not load but the
preload effect has run (handle present with loaded = false, playing = false),
invoking toggleAudio is NOT a no-op: the playing boolean flips to true, the
rendered label changes from 'Play audio' to 'Pause audio', and play() is
invoked once on the handle.  The presence check cannot detect load failure
because the preload effect constructs the handle unconditionally. -/
theorem c2_counterexample :
    (mountAudio { audioRef := none, playing := false } false).playing = false
    ∧ (toggleAudio (mountAudio { audioRef := none, playing := false } false)).playing = true
    ∧ (renderAudioButton
        (mountAudio { audioRef := none, playing := false } false).playing).label = "Play audio"
    ∧ (renderAudioButton
        (toggleAudio (mountAudio { audioRef := none, playing := false } false)).playing).label
        = "Pause audio"
    ∧ (toggleAudio (mountAudio { audioRef := none, playing := false } false)).audioRef
        = some { loaded := false, playCalls := 1, pauseCalls := 0 } := by
  decide

/-- Claim C2 amended: the inert no-op holds exactly when the audio handle is
absent (audioRef null — the preload effect has not run): toggleAudio then
changes nothing.  Asset load failure does not clear the handle, since the
preload effect constructs it unconditionally, so once the effect has run
toggleAudio flips the playing boolean whether or not the asset loaded. -/
theorem c2_amended_noop_iff_handle_absent (s : AudioState) :
    (s.audioRef = none → toggleAudio s = s)
    ∧ (∀ assetLoads : Bool, (toggleAudio (mountAudio s assetLoads)).playing = !s.playing) := by
  constructor
  · intro h
    simp [toggleAudio, h]
  · intro b
    by_cases hp : s.playing <;> simp [toggleAudio, mountAudio, hp]

/-- Claim C2 witness: the amended statement instantiated — toggling with a
null handle changes nothing, and toggling after a failed-load mount still
flips the playing boolean. -/
theorem c2_amended_witness :
    toggleAudio { audioRef := none, playing := false } = { audioRef := none, playing := false }
    ∧ (toggleAudio (mountAudio { audioRef := none, playing := true } false)).playing = false :=
  ⟨(c2_amended_noop_iff_handle_absent { audioRef := none, playing := false }).1 rfl,
   (c2_amended_noop_iff_handle_absent { audioRef := none, playing := true }).2 false⟩

/-- Claim C3: with the audio handle present, toggling is an involution on the
playing boolean, and after every single toggle the rendered button label is
'Pause audio' exactly when playing is true and 'Play audio' exactly when
playing is false, with the aria-pressed flag equal to the playing boolean. -/
theorem c3_toggle_involution_and_label (s : AudioState) (h : AudioHandle)
    (hs : s.audioRef = some h) :
    (toggleAudio (toggleAudio s)).playing = s.playing
    ∧ ((renderAudioButton (toggleAudio s).playing).label = "Pause audio"
        ↔ (toggleAudio s).playing = true)
    ∧ ((renderAudioButton (toggleAudio s).playing).label = "Play audio"
        ↔ (toggleAudio s).playing = false)
    ∧ (renderAudioButton (toggleAudio s).playing).ariaPressed = (toggleAudio s).playing := by
  by_cases hp : s.playing <;>
    simp [toggleAudio, hs, renderAudioButton, hp]

/-- Claim C3 witness: the involution and label statements instantiated at a
concrete paused state with a present handle. -/
theorem c3_witness :
    (toggleAudio (toggleAudio
      { audioRef := some { loaded := true, playCalls := 0, pauseCalls := 0 },
        playing := false })).playing = false :=
  (c3_toggle_involution_and_label
    { audioRef := some { loaded := true, playCalls := 0, pauseCalls := 0 }, playing := false }
    { loaded := true, playCalls := 0, pauseCalls := 0 } rfl).1

/-- Claim C6: a resize event sets the camera aspect to exactly the quotient
of the surface's current pixel width by its current pixel height and the
renderer's output size to those same dimensions (stated for nonzero height,
where the JavaScript quotient is the exact rational quotient); the projection
matrix is updated. -/
theorem c6_resize_updates_aspect_and_size (c : Canvas) (s : SceneState)
    (hh : c.clientHeight ≠ 0) :
    (onResize c s).camera.aspect = JSNum.fin (c.clientWidth / c.clientHeight)
    ∧ (onResize c s).renderer.width = c.clientWidth
    ∧ (onResize c s).renderer.height = c.clientHeight
    ∧ (onResize c s).camera.projectionUpdates = s.camera.projectionUpdates + 1 := by
  refine ⟨?_, rfl, rfl, rfl⟩
  simp [onResize, jsDiv, hh]

/-- Claim C6 witness: the resize theorem instantiated at a 1920 x 1080
surface. -/
theorem c6_witness :
    ({ clientWidth := 1920, clientHeight := 1080 } : Canvas).clientHeight ≠ 0
    ∧ (onResize { clientWidth := 1920, clientHeight := 1080 } sampleScene).camera.aspect
        = JSNum.fin (1920 / 1080) :=
  ⟨by decide,
   (c6_resize_updates_aspect_and_size
     { clientWidth := 1920, clientHeight := 1080 } sampleScene (by decide)).1⟩

/-- Claim C8: the Projects mount effect registers exactly one entrance
animation (vertical offset 40 plus fade-in from autoAlpha 0) per rendered
card element, indexed in document order, with delays strictly increasing by
the constant step 0.12 across consecutive elements, triggered when the
container's top edge crosses 80% of the viewport height. -/
theorem c8_scroll_reveal_registration :
    projectsMountReveal.animations.length = renderedProjectCards.length
    ∧ projectsMountReveal.animations.map RevealAnimation.targetIndex =
        List.range renderedProjectCards.length
    ∧ List.Chain' (fun a b => b.delay = a.delay + 12/100 ∧ a.delay < b.delay)
        projectsMountReveal.animations
    ∧ (∀ a ∈ projectsMountReveal.animations,
        a.yFrom = 40 ∧ a.autoAlphaFrom = 0 ∧ a.durationSecs = 9/10
        ∧ a.delay = 12/100 * a.targetIndex)
    ∧ projectsMountReveal.triggerStartFraction = 8/10 := by
  have hr : List.range 6 = [0, 1, 2, 3, 4, 5] := rfl
  refine ⟨rfl, rfl, ?_, ?_, rfl⟩ <;>
    simp [projectsMountReveal, registerReveal, staggerStep, renderedProjectCards, PROJECTS,
      hr, List.chain'_cons] <;>
    norm_num

/-- Claim C9: the camera aspect computation is an unguarded division: with
surface height 0, both the mount effect and the resize handler assign
clientWidth / 0 — a non-finite value, Infinity or NaN for non-negative
width — with no branch guarding the zero case and no error raised (both
operations run to completion and still perform the assignment). -/
theorem c9_unguarded_zero_height_division (c : Canvas) (s : SceneState)
    (hh : c.clientHeight = 0) :
    (onResize c s).camera.aspect = jsDiv c.clientWidth 0
    ∧ ((onResize c s).camera.aspect).isFinite = false
    ∧ (∀ s0 : SceneState, (mountScene (some c)).state = some s0 →
        s0.camera.aspect = jsDiv c.clientWidth 0 ∧ (s0.camera.aspect).isFinite = false)
    ∧ (0 ≤ c.clientWidth →
        (onResize c s).camera.aspect = JSNum.inf ∨ (onResize c s).camera.aspect = JSNum.nan) := by
  have hfin : ∀ w : ℚ, (jsDiv w 0).isFinite = false := by
    intro w
    by_cases hw : w = 0
    · simp [jsDiv, hw, JSNum.isFinite]
    · by_cases hpos : 0 < w <;> simp [jsDiv, hw, hpos, JSNum.isFinite]
  have haspect : (onResize c s).camera.aspect = jsDiv c.clientWidth 0 := by
    simp [onResize, hh]
  refine ⟨haspect, ?_, ?_, ?_⟩
  · rw [haspect]; exact hfin c.clientWidth
  · intro s0 h0
    simp only [mountScene, Option.some.injEq] at h0
    subst h0
    exact ⟨by simp [animate, hh], by simp [animate, hh, hfin]⟩
  · intro hw
    rw [haspect]
    rcases lt_or_eq_of_le hw with hlt | heq
    · left; simp [jsDiv, hlt, ne_of_gt hlt]
    · right; simp [jsDiv, heq.symm]

/-- Claim C9 witness: the zero-height theorem instantiated at an 800 x 0
surface: the assigned aspect is non-finite. -/
theorem c9_witness :
    ({ clientWidth := 800, clientHeight := 0 } : Canvas).clientHeight = 0
    ∧ ((onResize { clientWidth := 800, clientHeight := 0 } sampleScene).camera.aspect).isFinite
        = false :=
  ⟨rfl,
   (c9_unguarded_zero_height_division
     { clientWidth := 800, clientHeight := 0 } sampleScene rfl).2.1⟩

end WebProject
